import Mathlib

/-!
Verification of the URL Structural Risk Analyzer
(`src/utils/url_analyzer.py`, class `URLAnalyzer`).

The Python source is shallowly embedded: pure functions become Lean
functions, the `re` regular-expression calls are modelled by a small
backtracking matcher with ordered alternation and greedy quantifiers
(the semantics of the Python `re` engine), and the fallible
`urllib.parse.urlparse` call becomes an `Except`-returning function,
so that the `try/except` block of `analyze_url_structure` becomes a
`match`.  The external library calls `urllib.parse.urlparse` and
`tldextract.extract` are modelled faithfully for the class of inputs
in scope (their relevant behaviour is reimplemented from the library
semantics: scheme splitting, netloc extraction, the `Invalid IPv6 URL`
failure, and public-suffix-based domain decomposition over a fixed
suffix snapshot).  Python float arithmetic in `_is_similar` is
modelled over `ℚ`.
-/

namespace UrlAnalyzer

/-! ## A small regular-expression engine

Models the fragment of Python `re` used by the source: character
classes, literals, ordered alternation, greedy `?`, `*`, `+`, `{2,}`,
with backtracking; `re.findall` scans left to right and returns
non-overlapping leftmost matches. -/

/-- Regular expressions over `Char`, with classes given as decidable
predicates.  `alt` is ordered (left branch preferred), `star` and
`opt` are greedy, as in the Python `re` engine. -/
inductive RE where
  | eps : RE
  | cls : (Char → Bool) → RE
  | cat : RE → RE → RE
  | alt : RE → RE → RE
  | star : RE → RE
  | opt : RE → RE

/-- Structural size of a regular expression, used to compute an
adequate fuel for the matcher. -/
def RE.size : RE → Nat
  | .eps => 1
  | .cls _ => 1
  | .cat a b => a.size + b.size + 1
  | .alt a b => a.size + b.size + 1
  | .star a => a.size + 1
  | .opt a => a.size + 1

/-- Backtracking matcher in continuation-passing style.  `reMatch fuel
re s k` tries to match a prefix of `s` against `re` and passes the
remaining input to `k`; on failure of `k` it backtracks.  `alt` tries
its left branch first; `star` is greedy: it first tries one more
(non-empty) iteration, then falls back to stopping, which is the
Python `re` behaviour.  `fuel` bounds the recursion (structurally, so
that the kernel can evaluate the matcher); a fuel of
`re.size + s.length + 2` always suffices, since fuel is consumed only
along the static nesting of the pattern and once per star iteration,
and every star iteration consumes at least one character. -/
def reMatch : Nat → RE → List Char → (List Char → Option (List Char)) → Option (List Char)
  | 0, _, _, _ => none
  | fuel + 1, re, s, k =>
    match re with
    | .eps => k s
    | .cls p =>
        match s with
        | [] => none
        | c :: s1 => if p c then k s1 else none
    | .cat a b => reMatch fuel a s (fun s1 => reMatch fuel b s1 k)
    | .alt a b => (reMatch fuel a s k).orElse (fun _ => reMatch fuel b s k)
    | .opt a => (reMatch fuel a s k).orElse (fun _ => k s)
    | .star a =>
        (reMatch fuel a s (fun s1 =>
          if s1.length < s.length then reMatch fuel (.star a) s1 k else none)).orElse
          (fun _ => k s)

/-- Greedy `+` desugars to one copy followed by a greedy star. -/
def RE.plus1 (r : RE) : RE := .cat r (.star r)

/-- Greedy `{2,}` desugars to two copies followed by a greedy star. -/
def RE.rep2 (r : RE) : RE := .cat r (.cat r (.star r))

/-- A literal string as a regular expression. -/
def RE.lit (s : String) : RE :=
  s.data.foldr (fun c r => .cat (.cls (fun d => d == c)) r) .eps

/-- Length of the (greedy, leftmost) match of `re` at the start of
`s`, if any; models an anchored attempt of the Python engine at one
position. -/
def reMatchLen (re : RE) (s : List Char) : Option Nat :=
  match reMatch (re.size + s.length + 2) re s some with
  | some rest => some (s.length - rest.length)
  | none => none

/-- Whether `re` matches at the start of `s`: models `re.match`
(anchored at position 0, not necessarily consuming all of `s`). -/
def reTest (re : RE) (s : String) : Bool :=
  (reMatchLen re s.data).isSome

/-- Scanner behind `findall`: at each position try a match; on a
non-empty match emit it and continue after it, otherwise advance one
character.  The patterns in scope never match the empty string. -/
def findallAux (re : RE) : Nat → List Char → List (List Char)
  | 0, _ => []
  | _ + 1, [] =>
      match reMatchLen re [] with
      | some _ => [[]]
      | none => []
  | fuel + 1, c :: rest =>
      match reMatchLen re (c :: rest) with
      | some (n + 1) =>
          (c :: rest).take (n + 1) :: findallAux re fuel ((c :: rest).drop (n + 1))
      | some 0 => [] :: findallAux re fuel rest
      | none => findallAux re fuel rest

/-- Models `re.findall(pattern, text)` (for patterns without capturing
groups): the list of non-overlapping leftmost matches. -/
def findall (re : RE) (text : String) : List String :=
  (findallAux re (text.length + 1) text.data).map (fun cs => String.mk cs)

/-! ## String helpers

Kernel-evaluable replacements for the Python string operations used
by the source, defined over the character list of a `String`. -/

/-- Models Python `s.startswith(pre)`. -/
def strStartsWith (s pre : String) : Bool :=
  pre.data.isPrefixOf s.data

/-- Accumulator-based duplicate removal keeping first occurrences. -/
def dedupAux : List String → List String → List String
  | _, [] => []
  | seen, x :: xs =>
      if seen.contains x then dedupAux seen xs else x :: dedupAux (x :: seen) xs

/-- Models the effect of Python `list(set(xs))` up to order: the
distinct elements of `xs` (first occurrences kept). -/
def dedup (xs : List String) : List String := dedupAux [] xs

/-! ## The two extraction patterns of `extract_urls` -/

/-- Character class `[a-zA-Z]`. -/
def asciiLetter (c : Char) : Bool := c.isAlpha

/-- Character class `[0-9]`. -/
def asciiDigit (c : Char) : Bool := c.isDigit

/-- Character class `[$-_@.&+]`: the range from `$` to `_` together
with `@`, `.`, `&`, `+` (all of which already lie in the range). -/
def dollarClass (c : Char) : Bool :=
  (Char.ofNat 0x24 ≤ c && c ≤ Char.ofNat 0x5F) || c == '@' || c == '.' || c == '&' || c == '+'

/-- Character class `[!*\\(\\),]`: the characters `!`, `*`, backslash,
`(`, `)`, `,`. -/
def bangClass (c : Char) : Bool :=
  c == '!' || c == '*' || c == Char.ofNat 0x5C || c == '(' || c == ')' || c == ','

/-- Character class `[0-9a-fA-F]`. -/
def hexDigit (c : Char) : Bool :=
  c.isDigit || ('a' ≤ c && c ≤ 'f') || ('A' ≤ c && c ≤ 'F')

/-- Character class `[a-zA-Z0-9-]`. -/
def alnumHyphen (c : Char) : Bool := c.isAlpha || c.isDigit || c == '-'

/-- Character class `[^\s]`. -/
def nonSpace (c : Char) : Bool := !c.isWhitespace

/-- The body alternation of the scheme-prefixed URL pattern:
`(?:[a-zA-Z]|[0-9]|[$-_@.&+]|[!*\\(\\),]|(?:%[0-9a-fA-F][0-9a-fA-F]))`. -/
def urlBodyAtom : RE :=
  .alt (.cls asciiLetter)
    (.alt (.cls asciiDigit)
      (.alt (.cls dollarClass)
        (.alt (.cls bangClass)
          (.cat (.cls (fun c => c == '%')) (.cat (.cls hexDigit) (.cls hexDigit))))))

/-- Pattern `url_pattern`: the source regex
`http[s]?://(?:[a-zA-Z]|[0-9]|[$-_@.&+]|[!*\\(\\),]|(?:%[0-9a-fA-F][0-9a-fA-F]))+`. -/
def url_pattern : RE :=
  .cat (RE.lit "http")
    (.cat (.opt (.cls (fun c => c == 's')))
      (.cat (RE.lit "://") (RE.plus1 urlBodyAtom)))

/-- Pattern `simple_url_pattern`: the source regex
`(?:www\.|[a-zA-Z0-9-]+\.)[a-zA-Z]{2,}(?:/[^\s]*)?`. -/
def simple_url_pattern : RE :=
  .cat (.alt (RE.lit "www.") (.cat (RE.plus1 (.cls alnumHyphen)) (.cls (fun c => c == '.'))))
    (.cat (RE.rep2 (.cls asciiLetter))
      (.opt (.cat (.cls (fun c => c == '/')) (.star (.cls nonSpace)))))

/-- Function `extract_urls`: finds matches of both patterns, prefixes `http://`
to scheme-less matches of the simple pattern, and removes duplicates
(`list(set(urls))`; Python returns the deduplicated strings in
unspecified order, modelled here by keeping first occurrences). -/
def extract_urls (text : String) : List String :=
  let urls := findall url_pattern text
  let simple_urls := findall simple_url_pattern text
  let all := urls ++ simple_urls.map (fun url =>
    if strStartsWith url "http://" || strStartsWith url "https://" then url
    else "http://" ++ url)
  dedup all

/-! ## Model of `urllib.parse.urlparse`

Only the `scheme` and `netloc` components are consumed by the source.
CPython splits a leading `scheme:` when the first character is an
ASCII letter and every character before the colon is a letter, digit,
`+`, `-` or `.`; a netloc follows a leading `//` and extends to the
first `/`, `?` or `#`; and `urlsplit` raises
`ValueError("Invalid IPv6 URL")` when exactly one of `[`, `]` occurs
in the netloc.  That failure is the `Except.error` case. -/

/-- The components of a parsed URL used by the analyzer. -/
structure ParseResult where
  scheme : String
  netloc : String
deriving DecidableEq, Repr

/-- Characters allowed in a URL scheme (`scheme_chars` in CPython and
tldextract): letters, digits, `+`, `-`, `.`. -/
def scheme_char (c : Char) : Bool :=
  c.isAlpha || c.isDigit || c == '+' || c == '-' || c == '.'

/-- Lowercase an ASCII string, per character (Python `str.lower` on
the ASCII inputs in scope). -/
def strToLower (s : String) : String := String.mk (s.data.map Char.toLower)

/-- Models `urllib.parse.urlparse` restricted to the components the
analyzer reads, including the `Invalid IPv6 URL` `ValueError`. -/
def urlparse (url : String) : Except String ParseResult :=
  let cs := url.data
  let beforeColon := cs.takeWhile (fun c => c != ':')
  let hasColon := decide (beforeColon.length < cs.length)
  let validScheme :=
    hasColon && !beforeColon.isEmpty &&
      (match beforeColon with
       | c :: _ => c.isAlpha
       | [] => false) &&
      beforeColon.all scheme_char
  let (scheme, rest) :=
    if validScheme then
      (String.mk (beforeColon.map Char.toLower), cs.drop (beforeColon.length + 1))
    else ("", cs)
  let netloc :=
    match rest with
    | '/' :: '/' :: tail => tail.takeWhile (fun c => c != '/' && c != '?' && c != '#')
    | _ => []
  if (netloc.contains '[' != netloc.contains ']') then
    .error "Invalid IPv6 URL"
  else
    .ok ⟨scheme, String.mk netloc⟩

/-! ## Model of `tldextract.extract`

The library splits the lenient netloc of the URL into
subdomain / registrable domain / public suffix, using the public
suffix list (modelled by a fixed snapshot of common suffixes) with
longest-suffix matching, returning the whole host as the domain for
dotted-IPv4 literals (octets 0..255) and for bracketed IPv6 hosts.
Unicode-dot normalization is omitted; inputs in scope are ASCII. -/

/-- The decomposition returned by `tldextract.extract`. -/
structure ExtractResult where
  subdomain : String
  domain : String
  suffix : String
deriving DecidableEq, Repr

/-- Split a character list into dot-separated labels (Python
`str.split(".")`: the empty string yields one empty label). -/
def splitOnDotAux : List Char → List Char → List String
  | acc, [] => [String.mk acc.reverse]
  | acc, c :: rest =>
      if c == '.' then String.mk acc.reverse :: splitOnDotAux [] rest
      else splitOnDotAux (c :: acc) rest

/-- Labels of a host string. -/
def dotLabels (s : String) : List String := splitOnDotAux [] s.data

/-- Join labels with dots (Python `".".join(labels)`). -/
def joinDots : List String → String
  | [] => ""
  | [x] => x
  | x :: xs => x ++ "." ++ joinDots xs

/-- Index of the first `//` in a character list, if any. -/
def findDoubleSlashIdx : List Char → Option Nat
  | [] => none
  | '/' :: '/' :: _ => some 0
  | _ :: rest => (findDoubleSlashIdx rest).map (· + 1)

/-- Models tldextract `_schemeless_url`: strips a leading `//`, or a
leading `scheme://` whose scheme characters are all valid; otherwise
returns the URL unchanged. -/
def schemelessUrl (url : String) : List Char :=
  let cs := url.data
  match findDoubleSlashIdx cs with
  | none => cs
  | some 0 => cs.drop 2
  | some ds =>
      if ds < 2 then cs
      else if (cs.drop (ds - 1)).take 1 == [':'] && (cs.take (ds - 1)).all scheme_char then
        cs.drop (ds + 2)
      else cs

/-- The part of a character list after its last `@`, or the whole list
when no `@` occurs (Python `s.rpartition("@")[-1]`). -/
def afterLastAt (cs : List Char) : List Char :=
  (cs.reverse.takeWhile (fun c => c != '@')).reverse

/-- Strip leading and trailing whitespace (Python `str.strip()`). -/
def trimWs (cs : List Char) : List Char :=
  ((cs.dropWhile Char.isWhitespace).reverse.dropWhile Char.isWhitespace).reverse

/-- Strip trailing dots (the root label, per tldextract). -/
def stripTrailingDots (cs : List Char) : List Char :=
  (cs.reverse.dropWhile (fun c => c == '.')).reverse

/-- Models tldextract `lenient_netloc`: the host part of the URL —
after the scheme, before any `/`, `?`, `#` or `:port`, after any
userinfo, trimmed, without a trailing root label.  A bracketed IPv6
literal is returned up to its closing bracket. -/
def lenient_netloc (url : String) : String :=
  let s := schemelessUrl url
  let s := s.takeWhile (fun c => c != '/')
  let s := s.takeWhile (fun c => c != '?')
  let s := s.takeWhile (fun c => c != '#')
  let s := afterLastAt s
  match s with
  | '[' :: _ =>
      if s.contains ']' then String.mk (s.takeWhile (fun c => c != ']') ++ [']'])
      else String.mk (stripTrailingDots (trimWs (s.takeWhile (fun c => c != ':'))))
  | _ => String.mk (stripTrailingDots (trimWs (s.takeWhile (fun c => c != ':'))))

/-- Numeric value of a digit string. -/
def digitsToNat (cs : List Char) : Nat :=
  cs.foldl (fun n c => n * 10 + (c.toNat - 48)) 0

/-- One dotted-quad octet as accepted by tldextract `looks_like_ip`:
decimal, no leading zero (except `0` itself), value at most 255. -/
def validOctet (s : String) : Bool :=
  match s.data with
  | [] => false
  | c :: rest =>
      (c :: rest).all Char.isDigit &&
        (rest.isEmpty || c != '0') &&
        decide (digitsToNat (c :: rest) ≤ 255)

/-- Models tldextract `looks_like_ip`: exactly four valid octets. -/
def looksLikeIp (s : String) : Bool :=
  match dotLabels s with
  | [a, b, c, d] => validOctet a && validOctet b && validOctet c && validOctet d
  | _ => false

/-- Suffix snapshot standing in for the public suffix list: every
suffix relevant to the constant tables of the source plus common
ones, including multi-label suffixes. -/
def suffixList : List String :=
  ["com", "org", "net", "edu", "gov", "io", "uk", "co.uk", "org.uk", "au", "com.au",
   "tk", "ml", "ga", "cf", "gq", "xyz", "top", "work", "click", "link", "download",
   "loan", "win", "bid", "info", "biz", "us", "in", "co.in", "de", "fr", "co"]

/-- Index of the start of the longest known public suffix among the
labels (`labels.length` when no suffix matches), per the tldextract
suffix trie with lowercased lookup. -/
def suffixIndex (labels : List String) : Nat :=
  ((List.range (labels.length + 1)).find? (fun i =>
      suffixList.contains (strToLower (joinDots (labels.drop i))))).getD labels.length

/-- Models `tldextract.extract`. -/
def tldextract (url : String) : ExtractResult :=
  let netloc := lenient_netloc url
  match netloc.data with
  | '[' :: _ => ⟨"", netloc, ""⟩
  | _ =>
    let labels := dotLabels netloc
    let si := suffixIndex labels
    if si == labels.length && labels.length == 4 && looksLikeIp netloc then
      ⟨"", netloc, ""⟩
    else
      let suffix := if si == labels.length then "" else joinDots (labels.drop si)
      let subdomain := if 2 ≤ si then joinDots (labels.take (si - 1)) else ""
      let domain := if si == 0 then "" else (labels.drop (si - 1)).headD ""
      ⟨subdomain, domain, suffix⟩

/-! ## Constant tables of `URLAnalyzer` -/

/-- Constant `PHISHING_KEYWORDS` (note the duplicated `suspended`, kept as in
the source). -/
def PHISHING_KEYWORDS : List String :=
  ["verify", "account", "suspended", "locked", "confirm", "update",
   "secure", "login", "signin", "banking", "paypal", "amazon",
   "ebay", "apple", "microsoft", "netflix", "suspended", "unusual"]

/-- Constant `SUSPICIOUS_TLDS`. -/
def SUSPICIOUS_TLDS : List String :=
  [".tk", ".ml", ".ga", ".cf", ".gq", ".xyz", ".top", ".work",
   ".click", ".link", ".download", ".loan", ".win", ".bid"]

/-- Constant `LEGITIMATE_DOMAINS`. -/
def LEGITIMATE_DOMAINS : List String :=
  ["google.com", "facebook.com", "amazon.com", "apple.com",
   "microsoft.com", "netflix.com", "paypal.com", "twitter.com",
   "instagram.com", "linkedin.com", "youtube.com", "github.com"]

/-! ## `_is_similar` -/

/-- Models Python `needle in hay` (contiguous substring test). -/
def strContains (hay needle : String) : Bool :=
  (List.range (hay.data.length + 1)).any (fun i => needle.data.isPrefixOf (hay.data.drop i))

/-- Number of positions of a string. -/
def strLen (s : String) : Nat := s.data.length

/-- Function `_is_similar(str1, str2, threshold=0.7)`: false on identical
strings; true when either is a substring of the other; otherwise
compares `1 - differences / max_len` with the threshold `0.7`, where
`differences` counts positional mismatches over the zip plus the
length difference.  The source computes the comparison in floating
point; it is modelled as exact rational arithmetic and written in
cross-multiplied integer form (`1 - d/m ≥ 7/10 ↔ 10*d ≤ 3*m` for
`m > 0`), so that the kernel can evaluate it; the characterization in
terms of the rational division formula is proved below.  The
threshold argument is never overridden by any caller in the source. -/
def _is_similar (str1 str2 : String) : Bool :=
  if str1 == str2 then false
  else if strContains str2 str1 || strContains str1 str2 then true
  else
    let max_len := max (strLen str1) (strLen str2)
    if max_len == 0 then false
    else
      let differences := ((str1.data.zip str2.data).countP (fun p => p.1 != p.2))
        + (max (strLen str1) (strLen str2) - min (strLen str1) (strLen str2))
      decide (10 * differences ≤ 3 * max_len)

/-! ## `analyze_url_structure` -/

/-- One structured red flag. -/
structure RedFlag where
  flag : String
  severity : String
  explanation : String
deriving DecidableEq, Repr

/-- The analysis result.  The normal path fills `domain`, `subdomain`
and `scheme` and leaves `error` empty; the degraded path (parse
failure) fills only `error`, matching the two key sets of the Python
dicts. -/
structure UrlAnalysis where
  url : String
  domain : Option String
  subdomain : Option String
  scheme : Option String
  risk_score : Nat
  red_flags : List RedFlag
  is_safe : Bool
  error : Option String
deriving DecidableEq, Repr

/-- The regex `\d+\.\d+\.\d+\.\d+` of rule 1. -/
def ip_regex : RE :=
  .cat (RE.plus1 (.cls asciiDigit))
    (.cat (.cls (fun c => c == '.'))
      (.cat (RE.plus1 (.cls asciiDigit))
        (.cat (.cls (fun c => c == '.'))
          (.cat (RE.plus1 (.cls asciiDigit))
            (.cat (.cls (fun c => c == '.'))
              (RE.plus1 (.cls asciiDigit)))))))

/-- Python `", ".join(xs)`. -/
def joinCommaSpace : List String → String
  | [] => ""
  | [x] => x
  | x :: xs => x ++ ", " ++ joinCommaSpace xs

/-- Count of a character in a string (Python `str.count` for a
single-character argument). -/
def countChar (s : String) (c : Char) : Nat := s.data.count c

/-- The bare name of a whitelist entry: `legit_domain.split('.')[0]`. -/
def legitName (legit_domain : String) : String :=
  String.mk (legit_domain.data.takeWhile (fun c => c != '.'))

/-- Rule 8 scan: the first whitelist entry whose bare name the domain
is similar (and not identical) to, if any; the loop `break`s at the
first hit. -/
def typoMatch (domain : String) : Option String :=
  LEGITIMATE_DOMAINS.find? (fun legit_domain =>
    _is_similar (strToLower domain) (strToLower (legitName legit_domain)) &&
      strToLower domain != strToLower (legitName legit_domain))

/-- Rule 1 condition: `re.match(r'\d+\.\d+\.\d+\.\d+', parsed.netloc)`. -/
def ruleIpCond (parsed : ParseResult) : Bool := reTest ip_regex parsed.netloc

/-- Rule 2 condition: `len(url) > 75`. -/
def ruleLenCond (url : String) : Bool := decide (strLen url > 75)

/-- Rule 3 condition: `f".{suffix}" in SUSPICIOUS_TLDS`. -/
def ruleTldCond (suffix : String) : Bool := decide (("." ++ suffix) ∈ SUSPICIOUS_TLDS)

/-- Rule 4 condition: `'@' in url`. -/
def ruleAtCond (url : String) : Bool := decide ('@' ∈ url.data)

/-- Rule 5 condition: `subdomain and subdomain.count('.') > 2`. -/
def ruleSubCond (subdomain : String) : Bool :=
  subdomain != "" && decide (countChar subdomain '.' > 2)

/-- Rule 6 condition: `parsed.scheme != 'https'`. -/
def ruleSchemeCond (parsed : ParseResult) : Bool := parsed.scheme != "https"

/-- Rule 7 keyword scan: `[kw for kw in PHISHING_KEYWORDS if kw in domain_lower]`. -/
def foundKeywords (full_domain : String) : List String :=
  PHISHING_KEYWORDS.filter (fun kw => strContains (strToLower full_domain) kw)

/-- Rule 9 condition: `domain.count('-') > 2`. -/
def ruleHyphenCond (domain : String) : Bool := decide (countChar domain '-' > 2)

/-- Rule 10 condition: `full_domain.lower() in LEGITIMATE_DOMAINS`. -/
def ruleWhitelistCond (full_domain : String) : Bool :=
  decide (strToLower full_domain ∈ LEGITIMATE_DOMAINS)

/-- The normal-path analysis, given the `urlparse` result.  Mirrors
rules 1–10 of the source: each rule appends at most one flag (the
flag list is the in-order concatenation of the per-rule singletons)
and adds its weight; rule 10 subtracts 30 with a floor at 0 (Nat
truncated subtraction); the final score is capped at 100. -/
def analyzeOk (url : String) (parsed : ParseResult) : UrlAnalysis :=
  let ext := tldextract url
  let domain := ext.domain
  let suffix := ext.suffix
  let subdomain := ext.subdomain
  let full_domain := domain ++ "." ++ suffix
  let c1 := ruleIpCond parsed
  let c2 := ruleLenCond url
  let c3 := ruleTldCond suffix
  let c4 := ruleAtCond url
  let c5 := ruleSubCond subdomain
  let c6 := ruleSchemeCond parsed
  let found_keywords := foundKeywords full_domain
  let c7 := !found_keywords.isEmpty
  let typo := typoMatch domain
  let c9 := ruleHyphenCond domain
  let c10 := ruleWhitelistCond full_domain
  let red_flags : List RedFlag :=
    (if c1 then [⟨"IP Address Used", "high",
        "Legitimate sites use domain names, not raw IP addresses"⟩] else []) ++
    (if c2 then [⟨"Unusually Long URL", "medium",
        "URL is " ++ toString (strLen url) ++
          " characters long. Phishing URLs are often excessively long."⟩] else []) ++
    (if c3 then [⟨"Suspicious Domain Extension (." ++ suffix ++ ")", "medium",
        "." ++ suffix ++ " domains are commonly used in phishing attacks"⟩] else []) ++
    (if c4 then [⟨"@ Symbol in URL", "high",
        "The @ symbol can hide the real destination domain"⟩] else []) ++
    (if c5 then [⟨"Too Many Subdomains", "medium",
        "Multiple subdomains (" ++ subdomain ++ ") can indicate domain spoofing"⟩] else []) ++
    (if c6 then [⟨"No HTTPS Encryption", "low",
        "URL doesn't use secure HTTPS protocol"⟩] else []) ++
    (if c7 then [⟨"Suspicious Keywords in Domain", "medium",
        "Domain contains phishing keywords: " ++ joinCommaSpace found_keywords⟩] else []) ++
    (match typo with
     | some legit_domain =>
        [⟨"Possible Typosquatting", "high",
          "Domain '" ++ domain ++ "' looks similar to '" ++ legitName legit_domain ++
            "' - possible impersonation"⟩]
     | none => []) ++
    (if c9 then [⟨"Many Hyphens in Domain", "low",
        "Excessive hyphens can indicate a fake domain"⟩] else []) ++
    (if c10 then [⟨"Known Legitimate Domain", "low",
        full_domain ++ " is a recognized legitimate domain"⟩] else [])
  let s9 :=
    (if c1 then 30 else 0) + (if c2 then 15 else 0) + (if c3 then 20 else 0) +
    (if c4 then 35 else 0) + (if c5 then 20 else 0) + (if c6 then 10 else 0) +
    (if c7 then 15 else 0) + (if typo.isSome then 40 else 0) + (if c9 then 10 else 0)
  let s10 := if c10 then s9 - 30 else s9
  let risk_score := min 100 s10
  { url := url
    domain := some full_domain
    subdomain := some subdomain
    scheme := some parsed.scheme
    risk_score := risk_score
    red_flags := red_flags
    is_safe := decide (risk_score < 40)
    error := none }

/-- Function `analyze_url_structure`: the normal path when parsing succeeds,
the degraded result of the `except` branch when it fails.  Totality
of this function is the model of the never-raises contract. -/
def analyze_url_structure (url : String) : UrlAnalysis :=
  match urlparse url with
  | .ok parsed => analyzeOk url parsed
  | .error e =>
    { url := url
      domain := none
      subdomain := none
      scheme := none
      risk_score := 50
      red_flags := [⟨"Malformed URL", "medium",
        "URL structure appears invalid or malformed"⟩]
      is_safe := false
      error := some ("Failed to parse URL: " ++ e) }

/-- Function `batch_analyze_urls`: one analysis per input URL, in order. -/
def batch_analyze_urls (urls : List String) : List UrlAnalysis :=
  urls.map analyze_url_structure

/-! ## Weights of the triggered rules (for the clamped-sum invariant)

Lists, per rule in evaluation order, the weight each triggered rule
contributes (`-30` for the whitelist rule 10), over the same
conditions `analyzeOk` evaluates. -/

/-- The signed weights of the rules triggered on the normal path. -/
def ruleWeights (url : String) (parsed : ParseResult) : List Int :=
  let ext := tldextract url
  let domain := ext.domain
  let suffix := ext.suffix
  let subdomain := ext.subdomain
  let full_domain := domain ++ "." ++ suffix
  (if ruleIpCond parsed then [(30 : Int)] else []) ++
  (if ruleLenCond url then [(15 : Int)] else []) ++
  (if ruleTldCond suffix then [(20 : Int)] else []) ++
  (if ruleAtCond url then [(35 : Int)] else []) ++
  (if ruleSubCond subdomain then [(20 : Int)] else []) ++
  (if ruleSchemeCond parsed then [(10 : Int)] else []) ++
  (if !(foundKeywords full_domain).isEmpty then [(15 : Int)] else []) ++
  (if (typoMatch domain).isSome then [(40 : Int)] else []) ++
  (if ruleHyphenCond domain then [(10 : Int)] else []) ++
  (if ruleWhitelistCond full_domain then [(-30 : Int)] else [])

/-! ## Derived notions used by the claims -/

/-- Whether an analysis carries a red flag with the given name. -/
def hasFlag (a : UrlAnalysis) (name : String) : Bool :=
  a.red_flags.any (fun f => decide (f.flag = name))

/-- Stated from the claim wording for rule 1: a dotted-IPv4 literal
host, i.e. exactly four dot-separated non-empty decimal-digit labels
making up the whole host. -/
def isDottedIPv4Literal (host : String) : Bool :=
  match dotLabels host with
  | [a, b, c, d] =>
      (!a.data.isEmpty && a.data.all Char.isDigit) &&
      (!b.data.isEmpty && b.data.all Char.isDigit) &&
      (!c.data.isEmpty && c.data.all Char.isDigit) &&
      (!d.data.isEmpty && d.data.all Char.isDigit)
  | _ => false

/-! ## Supporting lemmas -/

lemma any_ite_singleton (c : Bool) (f : RedFlag) (p : RedFlag → Bool) :
    (if c then [f] else []).any p = (c && p f) := by
  cases c <;> simp

lemma sum_ite_single (c : Bool) (w : Int) :
    (if c then [w] else []).sum = if c then w else 0 := by
  cases c <;> simp

lemma cast_ite30 (c : Bool) :
    (((if c then 30 else 0 : Nat)) : Int) = if c then (30 : Int) else 0 := by
  cases c <;> simp

lemma cast_ite15 (c : Bool) :
    (((if c then 15 else 0 : Nat)) : Int) = if c then (15 : Int) else 0 := by
  cases c <;> simp

lemma cast_ite20 (c : Bool) :
    (((if c then 20 else 0 : Nat)) : Int) = if c then (20 : Int) else 0 := by
  cases c <;> simp

lemma cast_ite35 (c : Bool) :
    (((if c then 35 else 0 : Nat)) : Int) = if c then (35 : Int) else 0 := by
  cases c <;> simp

lemma cast_ite10 (c : Bool) :
    (((if c then 10 else 0 : Nat)) : Int) = if c then (10 : Int) else 0 := by
  cases c <;> simp

lemma cast_ite40 (c : Bool) :
    (((if c then 40 else 0 : Nat)) : Int) = if c then (40 : Int) else 0 := by
  cases c <;> simp

/-- The rule 3 flag name can never collide with another rule flag
name: it is at least 31 characters long. -/
lemma flag3Name_ne (s t : String) (ht : t.length < 31) :
    ("Suspicious Domain Extension (." ++ s ++ ")" : String) ≠ t := by
  intro h
  have hl := congrArg String.length h
  rw [String.length_append, String.length_append] at hl
  have h30 : ("Suspicious Domain Extension (." : String).length = 30 := rfl
  have h1 : ((")" : String)).length = 1 := rfl
  omega

lemma flag3_decide_ip (s : String) :
    (decide (("Suspicious Domain Extension (." ++ s ++ ")" : String) = "IP Address Used"))
      = false :=
  decide_eq_false (flag3Name_ne s _ (by decide))

lemma flag3_decide_sub (s : String) :
    (decide (("Suspicious Domain Extension (." ++ s ++ ")" : String) = "Too Many Subdomains"))
      = false :=
  decide_eq_false (flag3Name_ne s _ (by decide))

lemma flag3_decide_typo (s : String) :
    (decide (("Suspicious Domain Extension (." ++ s ++ ")" : String) = "Possible Typosquatting"))
      = false :=
  decide_eq_false (flag3Name_ne s _ (by decide))

/-- A string starting with a dot stays distinct, after lowering, from
any string that does not start with a dot. -/
lemma dottedLower_ne (s t : String) (ht : t.data.head? ≠ some '.') :
    strToLower ("." ++ s) ≠ t := by
  intro h
  apply ht
  rw [← h]
  rfl

/-- No whitelist entry starts with a dot, so a full domain of the form
`"." ++ s` never satisfies the rule 10 condition. -/
lemma whitelistCond_dot (s : String) : ruleWhitelistCond ("." ++ s) = false := by
  unfold ruleWhitelistCond
  apply decide_eq_false
  intro hmem
  simp only [LEGITIMATE_DOMAINS, List.mem_cons, List.not_mem_nil, or_false] at hmem
  rcases hmem with h | h | h | h | h | h | h | h | h | h | h | h <;>
    exact dottedLower_ne s _ (by decide) h

/-- The emptiness guard in rule 5 is redundant: an empty subdomain has
no dots. -/
lemma ruleSubCond_eq (s : String) :
    ruleSubCond s = decide (countChar s '.' > 2) := by
  rcases s with ⟨_ | ⟨c, cs⟩⟩
  · simp [ruleSubCond, countChar]
  · have hne : ((⟨c :: cs⟩ : String) != "") = true := rfl
    simp [ruleSubCond, hne]

/-- The risk score of the normal path is the signed sum of the
triggered rule weights clamped to `[0, 100]`: the sequential
accumulate-then-floor-then-cap of the source coincides with a clamp
of the signed sum. -/
lemma analyzeOk_risk_int (url : String) (parsed : ParseResult) :
    ((analyzeOk url parsed).risk_score : Int)
      = min 100 (max 0 (ruleWeights url parsed).sum) := by
  unfold analyzeOk ruleWeights
  simp only [List.sum_append, sum_ite_single, List.sum_nil, List.sum_cons, add_zero]
  cases hb : ruleWhitelistCond
      ((tldextract url).domain ++ "." ++ (tldextract url).suffix) <;>
    simp only [Bool.false_eq_true, if_false, if_true] <;>
    simp only [← cast_ite30, ← cast_ite15, ← cast_ite20, ← cast_ite35,
      ← cast_ite10, ← cast_ite40] <;>
    omega

/-! ## The claims -/

/-- C1: for every input string, `riskScore` lies in `[0, 100]` and, on
the normal path, equals the signed sum of the triggered rule weights
clamped to `[0, 100]`; `isSafe` holds exactly when the result is
normally scored and `riskScore < 40`, and on the degraded
malformed-URL path `isSafe` is false unconditionally. -/
theorem riskScore_clamped_isSafe_threshold (url : String) :
    (0 ≤ (analyze_url_structure url).risk_score ∧
      (analyze_url_structure url).risk_score ≤ 100) ∧
    (analyze_url_structure url).is_safe
      = ((analyze_url_structure url).error.isNone
          && decide ((analyze_url_structure url).risk_score < 40)) ∧
    (∀ parsed, urlparse url = .ok parsed →
      ((analyze_url_structure url).risk_score : Int)
        = min 100 (max 0 (ruleWeights url parsed).sum)) ∧
    (∀ e, urlparse url = .error e → (analyze_url_structure url).is_safe = false) := by
  cases h : urlparse url with
  | ok parsed =>
      refine ⟨⟨Nat.zero_le _, ?_⟩, ?_, ?_, ?_⟩
      · simp only [analyze_url_structure, h]
        unfold analyzeOk
        exact Nat.min_le_left _ _
      · simp [analyze_url_structure, h, analyzeOk]
      · intro p hp
        injection hp with hpp
        subst hpp
        have hre : analyze_url_structure url = analyzeOk url parsed := by
          simp [analyze_url_structure, h]
        rw [hre]
        exact analyzeOk_risk_int url parsed
      · intro e he
        exact Except.noConfusion he
  | error e =>
      refine ⟨⟨Nat.zero_le _, ?_⟩, ?_, ?_, ?_⟩
      · simp [analyze_url_structure, h]
      · simp [analyze_url_structure, h]
      · intro p hp
        exact Except.noConfusion hp
      · intro e' he
        simp [analyze_url_structure, h]

/-- C1 witness: the clamped-sum equation instantiated at
`https://paypal.com` (a URL that parses). -/
theorem riskScore_clamped_isSafe_threshold_witness :
    ((analyze_url_structure "https://paypal.com").risk_score : Int)
      = min 100 (max 0 (ruleWeights "https://paypal.com" ⟨"https", "paypal.com"⟩).sum) :=
  (riskScore_clamped_isSafe_threshold "https://paypal.com").2.2.1
    ⟨"https", "paypal.com"⟩ rfl

/-- C2: the analyzer is total (it never raises): when parsing fails it
returns exactly the degraded result — risk 50, the single medium
`Malformed URL` flag, unsafe, and an error marker — and normally
scored results carry no error marker. -/
theorem degraded_result_on_parse_failure (url : String) :
    (∀ parsed, urlparse url = .ok parsed → (analyze_url_structure url).error = none) ∧
    (∀ e, urlparse url = .error e →
      analyze_url_structure url =
        { url := url
          domain := none
          subdomain := none
          scheme := none
          risk_score := 50
          red_flags := [⟨"Malformed URL", "medium",
            "URL structure appears invalid or malformed"⟩]
          is_safe := false
          error := some ("Failed to parse URL: " ++ e) }) := by
  constructor
  · intro parsed hp
    simp [analyze_url_structure, hp, analyzeOk]
  · intro e he
    simp [analyze_url_structure, he]

/-- C2 witness: `http://[` fails to parse (the CPython
`Invalid IPv6 URL` failure) and yields exactly the degraded result,
while `https://paypal.com` parses and carries no error marker. -/
theorem degraded_result_on_parse_failure_witness :
    (analyze_url_structure "https://paypal.com").error = none ∧
    analyze_url_structure "http://[" =
      { url := "http://["
        domain := none
        subdomain := none
        scheme := none
        risk_score := 50
        red_flags := [⟨"Malformed URL", "medium",
          "URL structure appears invalid or malformed"⟩]
        is_safe := false
        error := some ("Failed to parse URL: " ++ "Invalid IPv6 URL") } :=
  ⟨(degraded_result_on_parse_failure "https://paypal.com").1
      ⟨"https", "paypal.com"⟩ rfl,
   (degraded_result_on_parse_failure "http://[").2 "Invalid IPv6 URL" rfl⟩

/-- C4: `_is_similar` at the default threshold `0.7` is false on
identical strings, true when either string is a substring of the
other, and otherwise true exactly when one minus the ratio of
positional mismatches plus length difference over the maximum length
is at least `7/10`. -/
theorem is_similar_characterization (s1 s2 : String) :
    (s1 = s2 → _is_similar s1 s2 = false) ∧
    (s1 ≠ s2 → (strContains s2 s1 || strContains s1 s2) = true →
      _is_similar s1 s2 = true) ∧
    (s1 ≠ s2 → (strContains s2 s1 || strContains s1 s2) = false →
      (_is_similar s1 s2 = true ↔
        (7 : ℚ) / 10 ≤ 1 -
          (((s1.data.zip s2.data).countP (fun p => p.1 != p.2)
              + (max (strLen s1) (strLen s2) - min (strLen s1) (strLen s2)) : Nat) : ℚ)
            / ((max (strLen s1) (strLen s2) : Nat) : ℚ))) := by
  refine ⟨?_, ?_, ?_⟩
  · intro h
    simp [_is_similar, h]
  · intro hne hsub
    have hbeq : (s1 == s2) = false := beq_eq_false_iff_ne.mpr hne
    simp [_is_similar, hbeq, hsub]
  · intro hne hsub
    have hbeq : (s1 == s2) = false := beq_eq_false_iff_ne.mpr hne
    have hm0 : max (strLen s1) (strLen s2) ≠ 0 := by
      intro h0
      apply hne
      rcases s1 with ⟨d1⟩
      rcases s2 with ⟨d2⟩
      have h1 : d1.length = 0 := by
        have := Nat.le_of_eq h0
        simp only [strLen] at this ⊢
        omega
      have h2 : d2.length = 0 := by
        have := Nat.le_of_eq h0
        simp only [strLen] at this ⊢
        omega
      rw [List.length_eq_zero] at h1 h2
      rw [h1, h2]
    have hmbeq : (max (strLen s1) (strLen s2) == 0) = false :=
      beq_eq_false_iff_ne.mpr hm0
    simp only [_is_similar, hbeq, Bool.false_eq_true, if_false, hsub, hmbeq,
      decide_eq_true_eq]
    set m := max (strLen s1) (strLen s2) with hm_def
    set d := (s1.data.zip s2.data).countP (fun p => p.1 != p.2)
      + (m - min (strLen s1) (strLen s2)) with hd_def
    have hmpos : (0 : ℚ) < (m : ℚ) := by
      exact_mod_cast Nat.pos_of_ne_zero hm0
    constructor
    · intro hd10
      have hdq : (10 : ℚ) * d ≤ 3 * m := by exact_mod_cast hd10
      have hdiv : (d : ℚ) / m ≤ 3 / 10 := by
        rw [div_le_div_iff₀ hmpos (by norm_num : (0 : ℚ) < 10)]
        linarith
      linarith
    · intro hq
      have hdiv : (d : ℚ) / m ≤ 3 / 10 := by linarith
      rw [div_le_div_iff₀ hmpos (by norm_num : (0 : ℚ) < 10)] at hdiv
      have hdq : (10 : ℚ) * d ≤ 3 * m := by linarith
      exact_mod_cast hdq

/-- C4 witness: the three branches at concrete inputs — identical
strings, a substring pair, and the typosquat pair `paypa1`/`paypal`
whose similarity `1 - 1/6` passes the threshold. -/
theorem is_similar_characterization_witness :
    _is_similar "amazon" "amazon" = false ∧
    _is_similar "amazonsecurity" "amazon" = true ∧
    (7 : ℚ) / 10 ≤ 1 -
      ((("paypa1".data.zip "paypal".data).countP (fun p => p.1 != p.2)
          + (max (strLen "paypa1") (strLen "paypal")
              - min (strLen "paypa1") (strLen "paypal")) : Nat) : ℚ)
        / ((max (strLen "paypa1") (strLen "paypal") : Nat) : ℚ) :=
  ⟨(is_similar_characterization "amazon" "amazon").1 rfl,
   (is_similar_characterization "amazonsecurity" "amazon").2.1 (by decide) (by decide),
   ((is_similar_characterization "paypa1" "paypal").2.2 (by decide) (by decide)).mp
     (by decide)⟩

/-- C5 counterexample: the host `1.2.3.4x` is not a dotted-IPv4
literal, yet rule 1 fires on `http://1.2.3.4x`, because `re.match`
only anchors the pattern at the start of the netloc. -/
theorem ip_rule_counterexample :
    isDottedIPv4Literal "1.2.3.4x" = false ∧
    urlparse "http://1.2.3.4x" = .ok ⟨"http", "1.2.3.4x"⟩ ∧
    hasFlag (analyze_url_structure "http://1.2.3.4x") "IP Address Used" = true :=
  ⟨by decide, rfl, by decide⟩

/-- C5 (amended): rule 1 adds its flag exactly when the netloc
matches the anchored regex `\d+\.\d+\.\d+\.\d+`, i.e. begins with a
dotted-quad prefix of unbounded decimal runs (`ruleIpCond`); when it
fires, the weight 30 is among the triggered weights. -/
theorem ip_rule_iff_dotted_quad (url : String) (parsed : ParseResult)
    (h : urlparse url = .ok parsed) :
    hasFlag (analyze_url_structure url) "IP Address Used" = ruleIpCond parsed ∧
    (ruleIpCond parsed = true → (30 : Int) ∈ ruleWeights url parsed) := by
  have hre : analyze_url_structure url = analyzeOk url parsed := by
    simp [analyze_url_structure, h]
  constructor
  · rw [hre]
    unfold hasFlag analyzeOk
    cases htypo : typoMatch (tldextract url).domain <;>
      simp [List.any_append, any_ite_singleton, htypo, flag3_decide_ip]
  · intro hip
    unfold ruleWeights
    simp [hip]

/-- C5 witness: the amended equivalence and the weight membership at
`http://1.2.3.4x`, whose netloc has a dotted-quad prefix. -/
theorem ip_rule_iff_dotted_quad_witness :
    hasFlag (analyze_url_structure "http://1.2.3.4x") "IP Address Used"
      = ruleIpCond ⟨"http", "1.2.3.4x"⟩ ∧
    (30 : Int) ∈ ruleWeights "http://1.2.3.4x" ⟨"http", "1.2.3.4x"⟩ :=
  ⟨(ip_rule_iff_dotted_quad "http://1.2.3.4x" ⟨"http", "1.2.3.4x"⟩ rfl).1,
   (ip_rule_iff_dotted_quad "http://1.2.3.4x" ⟨"http", "1.2.3.4x"⟩ rfl).2
     (by decide)⟩

/-- C6 counterexample: `a.b.c` is a subdomain of three sub-labels
(two dots), and rule 5 does not fire on it — refuting the reading
that at least three sub-labels suffice. -/
theorem subdomain_rule_counterexample :
    (tldextract "http://a.b.c.example.com").subdomain = "a.b.c" ∧
    (dotLabels "a.b.c").length = 3 ∧
    hasFlag (analyze_url_structure "http://a.b.c.example.com") "Too Many Subdomains"
      = false :=
  ⟨by decide, by decide, by decide⟩

/-- C6 (amended): rule 5 adds its flag exactly when the decomposed
subdomain contains more than 2 dots, i.e. consists of at least 4
sub-labels; when its condition holds, the weight 20 is among the
triggered weights. -/
theorem subdomain_rule_iff_dots (url : String) (parsed : ParseResult)
    (h : urlparse url = .ok parsed) :
    hasFlag (analyze_url_structure url) "Too Many Subdomains"
      = decide (2 < countChar (tldextract url).subdomain '.') ∧
    (ruleSubCond (tldextract url).subdomain = true →
      (20 : Int) ∈ ruleWeights url parsed) := by
  have hre : analyze_url_structure url = analyzeOk url parsed := by
    simp [analyze_url_structure, h]
  constructor
  · rw [hre]
    unfold hasFlag analyzeOk
    rw [← ruleSubCond_eq]
    cases htypo : typoMatch (tldextract url).domain <;>
      simp only [htypo, List.any_append, any_ite_singleton, List.any_cons, List.any_nil,
        String.reduceEq, decide_False, decide_True, flag3_decide_sub,
        Bool.and_false, Bool.and_true, Bool.or_false, Bool.false_or, Bool.or_true,
        Bool.true_or]
  · intro hsub
    unfold ruleWeights
    simp [hsub]

/-- C6 witness: the amended equivalence at a URL whose subdomain
`a.b.c.d` has three dots. -/
theorem subdomain_rule_iff_dots_witness :
    hasFlag (analyze_url_structure "http://a.b.c.d.example.com") "Too Many Subdomains"
      = decide (2 < countChar (tldextract "http://a.b.c.d.example.com").subdomain '.') ∧
    (20 : Int) ∈ ruleWeights "http://a.b.c.d.example.com"
      ⟨"http", "a.b.c.d.example.com"⟩ :=
  ⟨(subdomain_rule_iff_dots "http://a.b.c.d.example.com"
      ⟨"http", "a.b.c.d.example.com"⟩ rfl).1,
   (subdomain_rule_iff_dots "http://a.b.c.d.example.com"
      ⟨"http", "a.b.c.d.example.com"⟩ rfl).2 (by decide)⟩

/-- C9: on every URL that parses and whose decomposed registrable
domain label is empty, the typosquatting rule fires — the empty
string is a substring of every brand name and identical to none — so
the analysis carries a `Possible Typosquatting` flag and a risk score
of at least 40. -/
theorem empty_domain_triggers_typosquat (url : String) (parsed : ParseResult)
    (h : urlparse url = .ok parsed) (hdom : (tldextract url).domain = "") :
    hasFlag (analyze_url_structure url) "Possible Typosquatting" = true ∧
    40 ≤ (analyze_url_structure url).risk_score := by
  have hre : analyze_url_structure url = analyzeOk url parsed := by
    simp [analyze_url_structure, h]
  have htypo : typoMatch (tldextract url).domain = some "google.com" := by
    rw [hdom]
    decide
  have hwl : ruleWhitelistCond
      ((tldextract url).domain ++ "." ++ (tldextract url).suffix) = false := by
    rw [hdom]
    have h0 : (("" : String) ++ ".") = "." := rfl
    rw [h0]
    exact whitelistCond_dot _
  constructor
  · rw [hre]
    unfold hasFlag analyzeOk
    simp [List.any_append, any_ite_singleton, htypo]
  · rw [hre]
    unfold analyzeOk
    simp only [htypo, hwl, Option.isSome_some, Bool.false_eq_true, if_false, if_true]
    refine le_min (by norm_num) ?_
    exact le_trans (Nat.le_add_left 40 _) (Nat.le_add_right _ _)

/-- C9 witness: `http://` parses with an empty netloc, decomposes to
an empty domain label, and is flagged for typosquatting with risk at
least 40. -/
theorem empty_domain_triggers_typosquat_witness :
    hasFlag (analyze_url_structure "http://") "Possible Typosquatting" = true ∧
    40 ≤ (analyze_url_structure "http://").risk_score :=
  empty_domain_triggers_typosquat "http://" ⟨"http", ""⟩ rfl (by decide)

/-- C3 counterexample: the extraction never produces
`http://www.paypa1.com` from the example text — the bare-host regex
stops the post-dot run `[a-zA-Z]{2,}` at the digit `1`, so the string
claimed by the spec is not in the result. -/
theorem extraction_counterexample :
    "http://www.paypa1.com"
      ∉ extract_urls "Check http://amaz0n.com/deals or visit www.paypa1.com" := by
  decide

/-- C3 (amended): the extraction of the example text contains
`http://amaz0n.com/deals` and the scheme-prepended bare match
`http://www.paypa` (truncated before the digit); in fact it returns
exactly these together with `http://1.com`. -/
theorem extraction_of_example_text :
    extract_urls "Check http://amaz0n.com/deals or visit www.paypa1.com"
      = ["http://amaz0n.com/deals", "http://www.paypa", "http://1.com"] := by
  decide

/-- C7: `https://www.paypa1.com/signin` is flagged for typosquatting —
domain `paypa1` reported similar to `paypal` — with rule 8 driving the
score to 40, and judged unsafe. -/
theorem typosquat_detection_paypa1 :
    (⟨"Possible Typosquatting", "high",
        "Domain 'paypa1' looks similar to 'paypal' - possible impersonation"⟩ : RedFlag)
      ∈ (analyze_url_structure "https://www.paypa1.com/signin").red_flags ∧
    (analyze_url_structure "https://www.paypa1.com/signin").risk_score = 40 ∧
    (40 : Int) ∈ ruleWeights "https://www.paypa1.com/signin" ⟨"https", "www.paypa1.com"⟩ ∧
    (analyze_url_structure "https://www.paypa1.com/signin").is_safe = false := by
  refine ⟨by decide, by decide, by decide, by decide⟩

/-- C8: `https://www.google.com/search` decomposes to full domain
`google.com`, carries exactly the informational whitelist flag (hence
no IP, `@` or TLD flag), and is safe: the −30 whitelist reduction is
applied after the additive rules and floored at 0 (the score is 0,
not negative), and the flag list is still populated. -/
theorem whitelist_dominance_google :
    (analyze_url_structure "https://www.google.com/search").domain = some "google.com" ∧
    (analyze_url_structure "https://www.google.com/search").red_flags
      = [⟨"Known Legitimate Domain", "low",
          "google.com is a recognized legitimate domain"⟩] ∧
    (analyze_url_structure "https://www.google.com/search").risk_score = 0 ∧
    (ruleWeights "https://www.google.com/search" ⟨"https", "www.google.com"⟩).sum = -30 ∧
    (analyze_url_structure "https://www.google.com/search").is_safe = true := by
  refine ⟨by decide, by decide, by decide, by decide, by decide⟩

/-- C10: the keyword list contains the brand names themselves, so
`https://paypal.com` gets both the keyword flag (rule 7) and the
whitelist flag (rule 10), while the whitelist reduction brings the
score to 0 and the verdict to safe. -/
theorem keywords_contain_brands_paypal :
    "paypal" ∈ PHISHING_KEYWORDS ∧
    "amazon" ∈ PHISHING_KEYWORDS ∧
    hasFlag (analyze_url_structure "https://paypal.com") "Suspicious Keywords in Domain"
      = true ∧
    hasFlag (analyze_url_structure "https://paypal.com") "Known Legitimate Domain"
      = true ∧
    (analyze_url_structure "https://paypal.com").risk_score = 0 ∧
    (analyze_url_structure "https://paypal.com").is_safe = true := by
  refine ⟨by decide, by decide, by decide, by decide, by decide, by decide⟩

end UrlAnalyzer
